import Mathlib

/-!
Verification of the fintrack balance-projection engine (`useFinance`) and the
chart's monthly aggregation, as a shallow embedding in Lean 4.

Modelling conventions:
* Amounts (`number` in the source) are rationals `ℚ`.
* Calendar dates (ISO `YYYY-MM-DD` strings parsed with `new Date(...)`) are
  `JSDate` records of year/month/day integers; `month` is the calendar month
  number as written in the ISO string (JavaScript's 0-based `getMonth()` only
  ever appears in differences `end.getMonth() - start.getMonth()` and in
  `getMonth() + 1`, so the 1-based field is a faithful substitute).
  Timestamp comparison of two date-only ISO dates (`getTime`) coincides with
  lexicographic comparison of (year, month, day), which `timeLe` implements.
* `initialDate`/`targetDate` (`string | null`) become `Option JSDate`.
* `generateId` is `Math.random().toString(36).substring(2) + Date.now().toString(36)`:
  a clock-and-PRNG value with no freshness check against the ledger, so
  `addTransaction` takes the generated id as an explicit argument.
-/

/-- A calendar date as parsed from an ISO `YYYY-MM-DD` string. -/
structure JSDate where
  year : Int
  month : Int
  day : Int
deriving DecidableEq, Repr

/-- `date1.getTime() <= date2.getTime()` for date-only ISO dates:
lexicographic comparison of (year, month, day). -/
def timeLe (a b : JSDate) : Bool :=
  if a.year < b.year then true
  else if b.year < a.year then false
  else if a.month < b.month then true
  else if b.month < a.month then false
  else decide (a.day ≤ b.day)

/-- `date1.getTime() < date2.getTime()`: strict timestamp order. -/
def timeLt (a b : JSDate) : Bool :=
  !(timeLe b a)

/-- `type TransactionType = 'income' | 'expense'`. -/
inductive TransactionType where
  | income
  | expense
deriving DecidableEq, Repr

/-- `type RecurrenceType = 'none' | 'monthly' | 'yearly'`. -/
inductive RecurrenceType where
  | none
  | monthly
  | yearly
deriving DecidableEq, Repr

/-- `interface Transaction`. -/
structure Transaction where
  id : String
  type : TransactionType
  amount : ℚ
  date : JSDate
  description : String
  recurrence : RecurrenceType
deriving DecidableEq, Repr

/-- `interface FinanceState`. -/
structure FinanceState where
  initialBalance : ℚ
  initialDate : Option JSDate
  transactions : List Transaction
  targetDate : Option JSDate
deriving DecidableEq, Repr

/-- `getMonthsBetween`: `(end.getFullYear() - start.getFullYear()) * 12 +
(end.getMonth() - start.getMonth())` (0-based vs 1-based month cancels in the
difference). -/
def getMonthsBetween (start finish : JSDate) : Int :=
  (finish.year - start.year) * 12 + (finish.month - start.month)

/-- `getYearsBetween`: `end.getFullYear() - start.getFullYear()`. -/
def getYearsBetween (start finish : JSDate) : Int :=
  finish.year - start.year

/-- The signed amount `transaction.type === 'income' ? transaction.amount :
-transaction.amount`, computed at both use sites of the source. -/
def signedAmount (t : Transaction) : ℚ :=
  if t.type = TransactionType.income then t.amount else -t.amount

/-- `calculateRecurringAmount(transaction, startDate, endDate)`. -/
def calculateRecurringAmount (t : Transaction) (startDate endDate : JSDate) : ℚ :=
  let amount := signedAmount t
  if t.recurrence = RecurrenceType.none then
    amount
  else if t.recurrence = RecurrenceType.monthly then
    amount * ((getMonthsBetween startDate endDate : ℚ) + 1)
  else if t.recurrence = RecurrenceType.yearly then
    amount * ((getYearsBetween startDate endDate : ℚ) + 1)
  else
    amount

/-- The body of the `state.transactions.forEach` loop in `getBalanceAtDate`,
updating the running balance for one transaction. `transactionDate > targetDate`
is `timeLe transactionDate targetDate = false`. -/
def applyTx (targetDate : JSDate) (balance : ℚ) (t : Transaction) : ℚ :=
  if t.recurrence = RecurrenceType.none ∧ timeLe t.date targetDate = false then
    balance
  else if ¬ t.recurrence = RecurrenceType.none then
    if timeLe t.date targetDate then
      balance + calculateRecurringAmount t t.date targetDate
    else
      balance
  else
    if timeLe t.date targetDate then
      balance + signedAmount t
    else
      balance

/-- `getBalanceAtDate(targetDate)`: returns 0 when `state.initialDate` is null,
otherwise folds the loop body over the transactions starting from
`state.initialBalance`. (The parsed local `initialDate` in the source is never
read again, so it leaves no trace in the result.) -/
def getBalanceAtDate (state : FinanceState) (targetDate : JSDate) : ℚ :=
  match state.initialDate with
  | Option.none => 0
  | Option.some _ => state.transactions.foldl (applyTx targetDate) state.initialBalance

/-- `Omit<Transaction, 'id'>`: the draft passed to `addTransaction`. -/
structure TransactionDraft where
  type : TransactionType
  amount : ℚ
  date : JSDate
  description : String
  recurrence : RecurrenceType
deriving DecidableEq, Repr

/-- `{ ...transaction, id: generateId() }` with the generated id explicit. -/
def TransactionDraft.withId (d : TransactionDraft) (i : String) : Transaction :=
  ⟨i, d.type, d.amount, d.date, d.description, d.recurrence⟩

/-- `addTransaction(transaction)`: append the draft with the id produced by
`generateId()` (passed explicitly, see the module comment). -/
def addTransaction (s : FinanceState) (d : TransactionDraft) (i : String) : FinanceState :=
  { s with transactions := s.transactions ++ [d.withId i] }

/-- `deleteTransaction(id)`: keep transactions whose id differs. -/
def deleteTransaction (s : FinanceState) (i : String) : FinanceState :=
  { s with transactions := s.transactions.filter (fun t => t.id != i) }

/-- `setInitialBalance(balance, date)`. -/
def setInitialBalance (s : FinanceState) (balance : ℚ) (date : JSDate) : FinanceState :=
  { s with initialBalance := balance, initialDate := Option.some date }

/-- `clearAllData()` and also the `useState` initial value. -/
def initialState : FinanceState :=
  { initialBalance := 0
    initialDate := Option.none
    transactions := []
    targetDate := Option.none }

/-- `clearAllData()`: reset to the empty state. -/
def clearAllData (_ : FinanceState) : FinanceState :=
  initialState

/-- One user-level mutation of the ledger; `add` carries the id that
`generateId()` returned for that call. -/
inductive Op where
  | add (draft : TransactionDraft) (i : String)
  | delete (i : String)
  | setInit (balance : ℚ) (date : JSDate)
  | clearAll
deriving DecidableEq, Repr

/-- Apply one mutation. -/
def applyOp (s : FinanceState) : Op → FinanceState
  | Op.add draft i => addTransaction s draft i
  | Op.delete i => deleteTransaction s i
  | Op.setInit b d => setInitialBalance s b d
  | Op.clearAll => clearAllData s

/-- Run a sequence of mutations. -/
def runOps (s : FinanceState) (ops : List Op) : FinanceState :=
  ops.foldl applyOp s

/-- Does every `add` in the sequence carry an id not already present in the
ledger at that step?  This is what `generateId()` is trusted (but not checked)
to provide. -/
def freshRun (s : FinanceState) : List Op → Bool
  | [] => true
  | op :: ops =>
      (match op with
       | Op.add _ i => !((s.transactions.map (fun t => t.id)).contains i)
       | _ => true) && freshRun (applyOp s op) ops

/-- One bucket of the chart's `monthlyData` accumulator:
`{ income: 0, expense: 0, balance: 0 }`. -/
structure MonthStat where
  income : ℚ
  expense : ℚ
  balance : ℚ
deriving DecidableEq, Repr

/-- The month key `` `${date.getFullYear()}-${String(date.getMonth() + 1).padStart(2, '0')}` ``,
modelled as the (year, month) pair the string encodes injectively. -/
def monthKey (d : JSDate) : Int × Int :=
  (d.year, d.month)

/-- Add one transaction to its bucket: bump `income` or `expense` by the
amount, then recompute `balance = income - expense`. -/
def bumpStat (t : Transaction) (s : MonthStat) : MonthStat :=
  let s1 :=
    if t.type = TransactionType.income then
      { s with income := s.income + t.amount }
    else
      { s with expense := s.expense + t.amount }
  { s1 with balance := s1.income - s1.expense }

/-- The body of the chart's `reduce`: create the bucket (in insertion order,
as a JavaScript object key) if missing, then update it. -/
def monthlyStep (acc : List ((Int × Int) × MonthStat)) (t : Transaction) :
    List ((Int × Int) × MonthStat) :=
  let key := monthKey t.date
  let acc1 :=
    if acc.lookup key = Option.none then acc ++ [(key, MonthStat.mk 0 0 0)] else acc
  acc1.map (fun p => if p.1 = key then (p.1, bumpStat t p.2) else p)

/-- `monthlyData`: the chart aggregation over a transaction list (the source
runs it on the time-range-filtered list; the fold itself is this). -/
def monthlyData (txs : List Transaction) : List ((Int × Int) × MonthStat) :=
  txs.foldl monthlyStep []

/-- The contribution of one transaction to the balance at `targetDate`: the
loop body `applyTx` adds exactly this to the running balance.  (For
`recurrence = none` the source adds the signed amount directly, which equals
`calculateRecurringAmount` in that case.) -/
def txDelta (targetDate : JSDate) (t : Transaction) : ℚ :=
  if timeLe t.date targetDate then calculateRecurringAmount t t.date targetDate else 0

theorem applyTx_eq_add (targetDate : JSDate) (b : ℚ) (t : Transaction) :
    applyTx targetDate b t = b + txDelta targetDate t := by
  unfold applyTx txDelta calculateRecurringAmount
  rcases t with ⟨i, ty, a, d, de, r⟩
  cases r <;> cases h : timeLe d targetDate <;> simp [h]

theorem foldl_applyTx (targetDate : JSDate) (b : ℚ) (l : List Transaction) :
    l.foldl (applyTx targetDate) b = b + (l.map (txDelta targetDate)).sum := by
  induction l generalizing b with
  | nil => simp
  | cons t l ih =>
      simp only [List.foldl_cons, List.map_cons, List.sum_cons, applyTx_eq_add, ih]
      ring

/-- With `initialDate` set, the balance is the initial balance plus the sum of
the per-transaction contributions. -/
theorem getBalanceAtDate_eq_sum (s : FinanceState) (d0 : JSDate) (targetDate : JSDate)
    (hd : s.initialDate = Option.some d0) :
    getBalanceAtDate s targetDate =
      s.initialBalance + (s.transactions.map (txDelta targetDate)).sum := by
  unfold getBalanceAtDate
  rw [hd]
  exact foldl_applyTx targetDate s.initialBalance s.transactions

theorem timeLe_refl (d : JSDate) : timeLe d d = true := by
  unfold timeLe
  simp

/-- Removing one transaction from anywhere in the list removes exactly its
contribution from the balance. -/
theorem balance_extract (s : FinanceState) (d0 targetDate : JSDate) (t : Transaction)
    (l1 l2 : List Transaction) (hd : s.initialDate = Option.some d0)
    (ht : s.transactions = l1 ++ t :: l2) :
    getBalanceAtDate s targetDate =
      getBalanceAtDate { s with transactions := l1 ++ l2 } targetDate +
        txDelta targetDate t := by
  rw [getBalanceAtDate_eq_sum s d0 targetDate hd,
      getBalanceAtDate_eq_sum { s with transactions := l1 ++ l2 } d0 targetDate hd, ht]
  simp only [List.map_append, List.map_cons, List.sum_append, List.sum_cons]
  ring

theorem txDelta_of_none (targetDate : JSDate) (t : Transaction)
    (h : t.recurrence = RecurrenceType.none) :
    txDelta targetDate t = if timeLe t.date targetDate then signedAmount t else 0 := by
  unfold txDelta calculateRecurringAmount
  rw [h]
  simp

theorem txDelta_of_monthly (targetDate : JSDate) (t : Transaction)
    (h : t.recurrence = RecurrenceType.monthly) :
    txDelta targetDate t =
      if timeLe t.date targetDate then
        signedAmount t * ((getMonthsBetween t.date targetDate : ℚ) + 1)
      else 0 := by
  unfold txDelta calculateRecurringAmount
  rw [h]
  simp

theorem txDelta_of_yearly (targetDate : JSDate) (t : Transaction)
    (h : t.recurrence = RecurrenceType.yearly) :
    txDelta targetDate t =
      if timeLe t.date targetDate then
        signedAmount t * ((getYearsBetween t.date targetDate : ℚ) + 1)
      else 0 := by
  unfold txDelta calculateRecurringAmount
  rw [h]
  simp

/-- C1: for a ledger with `initialDate` set, a monthly recurring transaction
with `date <= targetDate` adds `signedAmount * (monthsBetween + 1)` to
`balanceAt` (calendar year*12+month arithmetic, day-of-month ignored), a
yearly one adds `signedAmount * (yearsBetween + 1)`; one dated after
`targetDate` adds nothing (the `if` yields 0), and one whose start date equals
`targetDate` adds exactly one occurrence. -/
theorem balanceAt_recurring_contribution (s : FinanceState) (d0 targetDate : JSDate)
    (t : Transaction) (l1 l2 : List Transaction)
    (hd : s.initialDate = Option.some d0) (ht : s.transactions = l1 ++ t :: l2) :
    (t.recurrence = RecurrenceType.monthly →
      getBalanceAtDate s targetDate =
        getBalanceAtDate { s with transactions := l1 ++ l2 } targetDate +
          (if timeLe t.date targetDate then
            signedAmount t * ((getMonthsBetween t.date targetDate : ℚ) + 1)
          else 0))
    ∧ (t.recurrence = RecurrenceType.yearly →
      getBalanceAtDate s targetDate =
        getBalanceAtDate { s with transactions := l1 ++ l2 } targetDate +
          (if timeLe t.date targetDate then
            signedAmount t * ((getYearsBetween t.date targetDate : ℚ) + 1)
          else 0))
    ∧ (¬ t.recurrence = RecurrenceType.none → t.date = targetDate →
      getBalanceAtDate s targetDate =
        getBalanceAtDate { s with transactions := l1 ++ l2 } targetDate +
          signedAmount t) := by
  have hex := balance_extract s d0 targetDate t l1 l2 hd ht
  refine ⟨?_, ?_, ?_⟩
  · intro hr
    rw [hex, txDelta_of_monthly targetDate t hr]
  · intro hr
    rw [hex, txDelta_of_yearly targetDate t hr]
  · intro hr heq
    rw [hex]
    cases hm : t.recurrence with
    | none => exact absurd hm hr
    | monthly =>
        rw [txDelta_of_monthly targetDate t hm, heq, timeLe_refl]
        simp [getMonthsBetween]
    | yearly =>
        rw [txDelta_of_yearly targetDate t hm, heq, timeLe_refl]
        simp [getYearsBetween]

theorem balanceAt_recurring_contribution_witness :
    (FinanceState.mk 100 (Option.some (JSDate.mk 2024 1 1))
        [Transaction.mk "a" TransactionType.expense 200 (JSDate.mk 2024 1 15) "rent"
          RecurrenceType.monthly]
        Option.none).initialDate = Option.some (JSDate.mk 2024 1 1) ∧
    (FinanceState.mk 100 (Option.some (JSDate.mk 2024 1 1))
        [Transaction.mk "a" TransactionType.expense 200 (JSDate.mk 2024 1 15) "rent"
          RecurrenceType.monthly]
        Option.none).transactions =
      [] ++ Transaction.mk "a" TransactionType.expense 200 (JSDate.mk 2024 1 15) "rent"
          RecurrenceType.monthly :: [] ∧
    ((Transaction.mk "a" TransactionType.expense 200 (JSDate.mk 2024 1 15) "rent"
          RecurrenceType.monthly).recurrence = RecurrenceType.monthly →
      getBalanceAtDate
          (FinanceState.mk 100 (Option.some (JSDate.mk 2024 1 1))
            [Transaction.mk "a" TransactionType.expense 200 (JSDate.mk 2024 1 15) "rent"
              RecurrenceType.monthly]
            Option.none) (JSDate.mk 2024 4 1) =
        getBalanceAtDate
          { FinanceState.mk 100 (Option.some (JSDate.mk 2024 1 1))
              [Transaction.mk "a" TransactionType.expense 200 (JSDate.mk 2024 1 15) "rent"
                RecurrenceType.monthly]
              Option.none with transactions := [] ++ [] } (JSDate.mk 2024 4 1) +
          (if timeLe (Transaction.mk "a" TransactionType.expense 200 (JSDate.mk 2024 1 15)
              "rent" RecurrenceType.monthly).date (JSDate.mk 2024 4 1) then
            signedAmount (Transaction.mk "a" TransactionType.expense 200 (JSDate.mk 2024 1 15)
              "rent" RecurrenceType.monthly) *
              ((getMonthsBetween (Transaction.mk "a" TransactionType.expense 200
                (JSDate.mk 2024 1 15) "rent" RecurrenceType.monthly).date
                (JSDate.mk 2024 4 1) : ℚ) + 1)
          else 0)) :=
  ⟨rfl, rfl,
    ((balanceAt_recurring_contribution _ (JSDate.mk 2024 1 1) (JSDate.mk 2024 4 1) _ [] []
      rfl rfl).1)⟩

/-- C2: when `initialDate` is unset, `getBalanceAtDate` returns 0 whatever the
initial balance, the transactions and the target date. -/
theorem balanceAt_no_initialDate (s : FinanceState) (targetDate : JSDate)
    (h : s.initialDate = Option.none) : getBalanceAtDate s targetDate = 0 := by
  unfold getBalanceAtDate
  rw [h]

theorem balanceAt_no_initialDate_witness :
    (FinanceState.mk 500 Option.none
        [Transaction.mk "a" TransactionType.income 300 (JSDate.mk 2020 1 1) "pay"
          RecurrenceType.monthly]
        Option.none).initialDate = Option.none ∧
    getBalanceAtDate
        (FinanceState.mk 500 Option.none
          [Transaction.mk "a" TransactionType.income 300 (JSDate.mk 2020 1 1) "pay"
            RecurrenceType.monthly]
          Option.none) (JSDate.mk 2024 1 1) = 0 :=
  ⟨rfl, balanceAt_no_initialDate _ (JSDate.mk 2024 1 1) rfl⟩

/-- C3: for a ledger with `initialDate` set, a non-recurring transaction adds
its full signed amount to `balanceAt` exactly once iff `date <= targetDate`,
and nothing when dated strictly after `targetDate`. -/
theorem balanceAt_nonrecurring_contribution (s : FinanceState) (d0 targetDate : JSDate)
    (t : Transaction) (l1 l2 : List Transaction)
    (hd : s.initialDate = Option.some d0) (ht : s.transactions = l1 ++ t :: l2)
    (hr : t.recurrence = RecurrenceType.none) :
    getBalanceAtDate s targetDate =
      getBalanceAtDate { s with transactions := l1 ++ l2 } targetDate +
        (if timeLe t.date targetDate then signedAmount t else 0) := by
  rw [balance_extract s d0 targetDate t l1 l2 hd ht, txDelta_of_none targetDate t hr]

theorem balanceAt_nonrecurring_contribution_witness :
    (FinanceState.mk 100 (Option.some (JSDate.mk 2024 1 1))
        [Transaction.mk "b" TransactionType.income 500 (JSDate.mk 2024 2 1) "gift"
          RecurrenceType.none]
        Option.none).initialDate = Option.some (JSDate.mk 2024 1 1) ∧
    (FinanceState.mk 100 (Option.some (JSDate.mk 2024 1 1))
        [Transaction.mk "b" TransactionType.income 500 (JSDate.mk 2024 2 1) "gift"
          RecurrenceType.none]
        Option.none).transactions =
      [] ++ Transaction.mk "b" TransactionType.income 500 (JSDate.mk 2024 2 1) "gift"
          RecurrenceType.none :: [] ∧
    (Transaction.mk "b" TransactionType.income 500 (JSDate.mk 2024 2 1) "gift"
        RecurrenceType.none).recurrence = RecurrenceType.none ∧
    getBalanceAtDate
        (FinanceState.mk 100 (Option.some (JSDate.mk 2024 1 1))
          [Transaction.mk "b" TransactionType.income 500 (JSDate.mk 2024 2 1) "gift"
            RecurrenceType.none]
          Option.none) (JSDate.mk 2024 3 1) =
      getBalanceAtDate
        { FinanceState.mk 100 (Option.some (JSDate.mk 2024 1 1))
            [Transaction.mk "b" TransactionType.income 500 (JSDate.mk 2024 2 1) "gift"
              RecurrenceType.none]
            Option.none with transactions := [] ++ [] } (JSDate.mk 2024 3 1) +
        (if timeLe (Transaction.mk "b" TransactionType.income 500 (JSDate.mk 2024 2 1)
            "gift" RecurrenceType.none).date (JSDate.mk 2024 3 1) then
          signedAmount (Transaction.mk "b" TransactionType.income 500 (JSDate.mk 2024 2 1)
            "gift" RecurrenceType.none)
        else 0) :=
  ⟨rfl, rfl, rfl,
    balanceAt_nonrecurring_contribution _ (JSDate.mk 2024 1 1) (JSDate.mk 2024 3 1) _ [] []
      rfl rfl rfl⟩

/-- C4: initial balance 1000 anchored 2024-01-01, one non-recurring income of
500 on 2024-02-01 and one monthly recurring expense of 200 starting
2024-01-01 give balance 1000 + 500 - 200*3 = 900 at 2024-03-01. -/
theorem balanceAt_scenario_900 :
    getBalanceAtDate
      (FinanceState.mk 1000 (Option.some (JSDate.mk 2024 1 1))
        [Transaction.mk "i1" TransactionType.income 500 (JSDate.mk 2024 2 1) "gift"
          RecurrenceType.none,
         Transaction.mk "e1" TransactionType.expense 200 (JSDate.mk 2024 1 1) "rent"
          RecurrenceType.monthly]
        Option.none)
      (JSDate.mk 2024 3 1) = 900 := by
  norm_num [getBalanceAtDate, applyTx, calculateRecurringAmount, signedAmount, timeLe,
    getMonthsBetween]
  rw [if_neg (by decide), if_neg (by decide), if_neg (by decide)]
  norm_num

/-- C5: with `initialDate` set and no transactions, `getBalanceAtDate` equals
`initialBalance` at every target date, including dates strictly before
`initialDate`. -/
theorem balanceAt_empty_transactions (s : FinanceState) (d0 : JSDate)
    (hd : s.initialDate = Option.some d0) (ht : s.transactions = []) :
    ∀ targetDate : JSDate, getBalanceAtDate s targetDate = s.initialBalance := by
  intro targetDate
  rw [getBalanceAtDate_eq_sum s d0 targetDate hd, ht]
  simp

theorem balanceAt_empty_transactions_witness :
    (FinanceState.mk 750 (Option.some (JSDate.mk 2024 1 1)) [] Option.none).initialDate =
      Option.some (JSDate.mk 2024 1 1) ∧
    (FinanceState.mk 750 (Option.some (JSDate.mk 2024 1 1)) [] Option.none).transactions =
      [] ∧
    timeLt (JSDate.mk 2020 6 1) (JSDate.mk 2024 1 1) = true ∧
    getBalanceAtDate (FinanceState.mk 750 (Option.some (JSDate.mk 2024 1 1)) [] Option.none)
        (JSDate.mk 2020 6 1) =
      (FinanceState.mk 750 (Option.some (JSDate.mk 2024 1 1)) [] Option.none).initialBalance :=
  ⟨rfl, rfl, by decide,
    balanceAt_empty_transactions _ (JSDate.mk 2024 1 1) rfl rfl (JSDate.mk 2020 6 1)⟩

/-- C7: deleting an id that matches no transaction returns a state equal by
value to the input — a silent no-op, there is no failure path. -/
theorem deleteTransaction_unknown_id (s : FinanceState) (i : String)
    (h : ∀ t ∈ s.transactions, t.id ≠ i) : deleteTransaction s i = s := by
  unfold deleteTransaction
  have hf : s.transactions.filter (fun t => t.id != i) = s.transactions := by
    apply List.filter_eq_self.mpr
    intro t ht
    simpa using h t ht
  rw [hf]

theorem deleteTransaction_unknown_id_witness :
    (∀ t ∈ (FinanceState.mk 100 (Option.some (JSDate.mk 2024 1 1))
        [Transaction.mk "a" TransactionType.income 300 (JSDate.mk 2024 1 2) "pay"
          RecurrenceType.none]
        Option.none).transactions, t.id ≠ "zzz") ∧
    deleteTransaction
        (FinanceState.mk 100 (Option.some (JSDate.mk 2024 1 1))
          [Transaction.mk "a" TransactionType.income 300 (JSDate.mk 2024 1 2) "pay"
            RecurrenceType.none]
          Option.none) "zzz" =
      FinanceState.mk 100 (Option.some (JSDate.mk 2024 1 1))
        [Transaction.mk "a" TransactionType.income 300 (JSDate.mk 2024 1 2) "pay"
          RecurrenceType.none]
        Option.none :=
  ⟨by decide, deleteTransaction_unknown_id _ "zzz" (by decide)⟩

/-- C8: with `initialDate` set, `getBalanceAtDate` is invariant under any
permutation of the transaction list. -/
theorem balanceAt_perm_invariant (s : FinanceState) (d0 targetDate : JSDate)
    (l2 : List Transaction) (hd : s.initialDate = Option.some d0)
    (hp : s.transactions.Perm l2) :
    getBalanceAtDate s targetDate =
      getBalanceAtDate { s with transactions := l2 } targetDate := by
  rw [getBalanceAtDate_eq_sum s d0 targetDate hd,
      getBalanceAtDate_eq_sum { s with transactions := l2 } d0 targetDate hd]
  have hmap : (s.transactions.map (txDelta targetDate)).Perm (l2.map (txDelta targetDate)) :=
    hp.map (txDelta targetDate)
  rw [hmap.sum_eq]

theorem balanceAt_perm_invariant_witness :
    (FinanceState.mk 10 (Option.some (JSDate.mk 2024 1 1))
        [Transaction.mk "a" TransactionType.income 5 (JSDate.mk 2024 1 2) "x"
          RecurrenceType.none,
         Transaction.mk "b" TransactionType.expense 3 (JSDate.mk 2024 1 3) "y"
          RecurrenceType.monthly]
        Option.none).initialDate = Option.some (JSDate.mk 2024 1 1) ∧
    (FinanceState.mk 10 (Option.some (JSDate.mk 2024 1 1))
        [Transaction.mk "a" TransactionType.income 5 (JSDate.mk 2024 1 2) "x"
          RecurrenceType.none,
         Transaction.mk "b" TransactionType.expense 3 (JSDate.mk 2024 1 3) "y"
          RecurrenceType.monthly]
        Option.none).transactions.Perm
      [Transaction.mk "b" TransactionType.expense 3 (JSDate.mk 2024 1 3) "y"
        RecurrenceType.monthly,
       Transaction.mk "a" TransactionType.income 5 (JSDate.mk 2024 1 2) "x"
        RecurrenceType.none] ∧
    getBalanceAtDate
        (FinanceState.mk 10 (Option.some (JSDate.mk 2024 1 1))
          [Transaction.mk "a" TransactionType.income 5 (JSDate.mk 2024 1 2) "x"
            RecurrenceType.none,
           Transaction.mk "b" TransactionType.expense 3 (JSDate.mk 2024 1 3) "y"
            RecurrenceType.monthly]
          Option.none) (JSDate.mk 2024 2 1) =
      getBalanceAtDate
        { FinanceState.mk 10 (Option.some (JSDate.mk 2024 1 1))
            [Transaction.mk "a" TransactionType.income 5 (JSDate.mk 2024 1 2) "x"
              RecurrenceType.none,
             Transaction.mk "b" TransactionType.expense 3 (JSDate.mk 2024 1 3) "y"
              RecurrenceType.monthly]
            Option.none with
          transactions :=
            [Transaction.mk "b" TransactionType.expense 3 (JSDate.mk 2024 1 3) "y"
              RecurrenceType.monthly,
             Transaction.mk "a" TransactionType.income 5 (JSDate.mk 2024 1 2) "x"
              RecurrenceType.none] } (JSDate.mk 2024 2 1) :=
  ⟨rfl,
   List.Perm.swap
     (Transaction.mk "b" TransactionType.expense 3 (JSDate.mk 2024 1 3) "y"
       RecurrenceType.monthly)
     (Transaction.mk "a" TransactionType.income 5 (JSDate.mk 2024 1 2) "x"
       RecurrenceType.none) [],
   balanceAt_perm_invariant _ (JSDate.mk 2024 1 1) (JSDate.mk 2024 2 1) _ rfl
     (List.Perm.swap
       (Transaction.mk "b" TransactionType.expense 3 (JSDate.mk 2024 1 3) "y"
         RecurrenceType.monthly)
       (Transaction.mk "a" TransactionType.income 5 (JSDate.mk 2024 1 2) "x"
         RecurrenceType.none) [])⟩

/-- C10: with `initialDate` set, a transaction dated strictly before
`initialDate` still contributes whenever its date is on or before
`targetDate`, and the value of `initialDate` has no effect on the result:
contributions are gated only by `targetDate`. -/
theorem balanceAt_ignores_initialDate (s : FinanceState) (d0 targetDate : JSDate)
    (t : Transaction) (l1 l2 : List Transaction)
    (hd : s.initialDate = Option.some d0) (ht : s.transactions = l1 ++ t :: l2)
    (_hbefore : timeLt t.date d0 = true) (hle : timeLe t.date targetDate = true) :
    getBalanceAtDate s targetDate =
      getBalanceAtDate { s with transactions := l1 ++ l2 } targetDate +
        calculateRecurringAmount t t.date targetDate
    ∧ ∀ d1 : JSDate,
        getBalanceAtDate { s with initialDate := Option.some d1 } targetDate =
          getBalanceAtDate s targetDate := by
  constructor
  · rw [balance_extract s d0 targetDate t l1 l2 hd ht]
    unfold txDelta
    rw [hle]
    simp
  · intro d1
    rw [getBalanceAtDate_eq_sum { s with initialDate := Option.some d1 } d1 targetDate rfl,
        getBalanceAtDate_eq_sum s d0 targetDate hd]

theorem balanceAt_ignores_initialDate_witness :
    (FinanceState.mk 100 (Option.some (JSDate.mk 2024 1 1))
        [Transaction.mk "a" TransactionType.income 50 (JSDate.mk 2020 5 5) "old"
          RecurrenceType.none]
        Option.none).initialDate = Option.some (JSDate.mk 2024 1 1) ∧
    (FinanceState.mk 100 (Option.some (JSDate.mk 2024 1 1))
        [Transaction.mk "a" TransactionType.income 50 (JSDate.mk 2020 5 5) "old"
          RecurrenceType.none]
        Option.none).transactions =
      [] ++ Transaction.mk "a" TransactionType.income 50 (JSDate.mk 2020 5 5) "old"
          RecurrenceType.none :: [] ∧
    timeLt (Transaction.mk "a" TransactionType.income 50 (JSDate.mk 2020 5 5) "old"
        RecurrenceType.none).date (JSDate.mk 2024 1 1) = true ∧
    timeLe (Transaction.mk "a" TransactionType.income 50 (JSDate.mk 2020 5 5) "old"
        RecurrenceType.none).date (JSDate.mk 2024 6 1) = true ∧
    (getBalanceAtDate
        (FinanceState.mk 100 (Option.some (JSDate.mk 2024 1 1))
          [Transaction.mk "a" TransactionType.income 50 (JSDate.mk 2020 5 5) "old"
            RecurrenceType.none]
          Option.none) (JSDate.mk 2024 6 1) =
      getBalanceAtDate
        { FinanceState.mk 100 (Option.some (JSDate.mk 2024 1 1))
            [Transaction.mk "a" TransactionType.income 50 (JSDate.mk 2020 5 5) "old"
              RecurrenceType.none]
            Option.none with transactions := [] ++ [] } (JSDate.mk 2024 6 1) +
        calculateRecurringAmount
          (Transaction.mk "a" TransactionType.income 50 (JSDate.mk 2020 5 5) "old"
            RecurrenceType.none)
          (Transaction.mk "a" TransactionType.income 50 (JSDate.mk 2020 5 5) "old"
            RecurrenceType.none).date (JSDate.mk 2024 6 1)
    ∧ ∀ d1 : JSDate,
        getBalanceAtDate
            { FinanceState.mk 100 (Option.some (JSDate.mk 2024 1 1))
                [Transaction.mk "a" TransactionType.income 50 (JSDate.mk 2020 5 5) "old"
                  RecurrenceType.none]
                Option.none with initialDate := Option.some d1 } (JSDate.mk 2024 6 1) =
          getBalanceAtDate
            (FinanceState.mk 100 (Option.some (JSDate.mk 2024 1 1))
              [Transaction.mk "a" TransactionType.income 50 (JSDate.mk 2020 5 5) "old"
                RecurrenceType.none]
              Option.none) (JSDate.mk 2024 6 1)) :=
  ⟨rfl, rfl, by decide, by decide,
    balanceAt_ignores_initialDate _ (JSDate.mk 2024 1 1) (JSDate.mk 2024 6 1) _ [] []
      rfl rfl (by decide) (by decide)⟩

theorem monthlyStep_recurrence_blind (acc : List ((Int × Int) × MonthStat))
    (t : Transaction) (r : RecurrenceType) :
    monthlyStep acc { t with recurrence := r } = monthlyStep acc t :=
  rfl

theorem foldl_monthlyStep_map (f : Transaction → RecurrenceType) (txs : List Transaction) :
    ∀ acc : List ((Int × Int) × MonthStat),
      List.foldl monthlyStep acc (txs.map (fun t => { t with recurrence := f t })) =
        List.foldl monthlyStep acc txs := by
  induction txs with
  | nil => intro acc; rfl
  | cons t txs ih =>
      intro acc
      simp only [List.map_cons, List.foldl_cons, monthlyStep_recurrence_blind]
      exact ih _

/-- C6: the chart aggregation sums each transaction into the single bucket of
its own calendar month, indifferent to its recurrence field — rewriting every
recurrence leaves `monthlyData` unchanged, and a lone transaction lands
entirely in its own month — so for a ledger with one monthly recurring
expense of 100 starting 2024-01-01 (anchor 2024-01-01, initial balance 0),
the per-month aggregates total -100 while `getBalanceAtDate` at 2024-02-01
has accumulated -200: the two recurrence treatments disagree. -/
theorem monthlyData_ignores_recurrence_and_disagrees_with_balanceAt :
    (∀ (f : Transaction → RecurrenceType) (txs : List Transaction),
      monthlyData (txs.map (fun t => { t with recurrence := f t })) = monthlyData txs)
    ∧ (∀ t : Transaction,
      monthlyData [t] =
        [((t.date.year, t.date.month),
          MonthStat.mk (if t.type = TransactionType.income then t.amount else 0)
            (if t.type = TransactionType.income then 0 else t.amount)
            (if t.type = TransactionType.income then t.amount else -t.amount))])
    ∧ ((monthlyData
          (FinanceState.mk 0 (Option.some (JSDate.mk 2024 1 1))
            [Transaction.mk "m" TransactionType.expense 100 (JSDate.mk 2024 1 1) "sub"
              RecurrenceType.monthly]
            Option.none).transactions).map (fun p => p.2.balance)).sum ≠
      getBalanceAtDate
          (FinanceState.mk 0 (Option.some (JSDate.mk 2024 1 1))
            [Transaction.mk "m" TransactionType.expense 100 (JSDate.mk 2024 1 1) "sub"
              RecurrenceType.monthly]
            Option.none) (JSDate.mk 2024 2 1) -
        (FinanceState.mk 0 (Option.some (JSDate.mk 2024 1 1))
          [Transaction.mk "m" TransactionType.expense 100 (JSDate.mk 2024 1 1) "sub"
            RecurrenceType.monthly]
          Option.none).initialBalance := by
  refine ⟨?_, ?_, ?_⟩
  · intro f txs
    exact foldl_monthlyStep_map f txs []
  · intro t
    rcases t with ⟨i, ty, a, d, de, r⟩
    cases ty <;> simp [monthlyData, monthlyStep, bumpStat, monthKey]
  · have hchart :
        (monthlyData
          [Transaction.mk "m" TransactionType.expense 100 (JSDate.mk 2024 1 1) "sub"
            RecurrenceType.monthly]).map (fun p => p.2.balance) = [-100] := by
      have hne : ¬ (TransactionType.expense = TransactionType.income) := by decide
      norm_num [monthlyData, monthlyStep, bumpStat, monthKey, if_neg hne]
    have hbal :
        getBalanceAtDate
          (FinanceState.mk 0 (Option.some (JSDate.mk 2024 1 1))
            [Transaction.mk "m" TransactionType.expense 100 (JSDate.mk 2024 1 1) "sub"
              RecurrenceType.monthly]
            Option.none) (JSDate.mk 2024 2 1) = -200 := by
      have hne1 : ¬ (RecurrenceType.monthly = RecurrenceType.none) := by decide
      have hne2 : ¬ (TransactionType.expense = TransactionType.income) := by decide
      norm_num [getBalanceAtDate, applyTx, calculateRecurringAmount, signedAmount, timeLe,
        getMonthsBetween, if_neg hne1, if_neg hne2]
    rw [hchart, hbal]
    norm_num

theorem nodup_ids_runOps (ops : List Op) :
    ∀ s : FinanceState, (s.transactions.map (fun t => t.id)).Nodup →
      freshRun s ops = true →
      ((runOps s ops).transactions.map (fun t => t.id)).Nodup := by
  induction ops with
  | nil =>
      intro s hn _
      exact hn
  | cons op ops ih =>
      intro s hn hf
      simp only [freshRun, Bool.and_eq_true] at hf
      obtain ⟨hguard, hrest⟩ := hf
      have hnext : ((applyOp s op).transactions.map (fun t => t.id)).Nodup := by
        cases op with
        | add draft i =>
            have hmem : i ∉ s.transactions.map (fun t => t.id) := by
              simpa using hguard
            simp only [applyOp, addTransaction, List.map_append]
            simp [TransactionDraft.withId, List.nodup_append, hn, hmem]
        | delete i =>
            simp only [applyOp, deleteTransaction]
            exact List.Nodup.sublist
              (List.Sublist.map (fun t => t.id) (List.filter_sublist s.transactions)) hn
        | setInit b d => exact hn
        | clearAll => simp [applyOp, clearAllData, initialState]
      exact ih (applyOp s op) hnext hrest

/-- C9 (amended): `addTransaction` appends the draft with the id the generator
returned and performs no uniqueness check; provided every generated id is
distinct from the ids already in the ledger at its step, any sequence of add,
delete, set-initial-balance and clear operations from the empty state keeps
all transaction ids pairwise distinct. -/
theorem ids_nodup_of_freshRun (ops : List Op) (h : freshRun initialState ops = true) :
    ((runOps initialState ops).transactions.map (fun t => t.id)).Nodup :=
  nodup_ids_runOps ops initialState (by simp [initialState]) h

theorem ids_nodup_of_freshRun_witness :
    freshRun initialState
        [Op.add (TransactionDraft.mk TransactionType.income 5 (JSDate.mk 2024 1 1) "a"
          RecurrenceType.none) "id1",
         Op.add (TransactionDraft.mk TransactionType.expense 3 (JSDate.mk 2024 1 2) "b"
          RecurrenceType.none) "id2",
         Op.delete "id1"] = true ∧
    ((runOps initialState
        [Op.add (TransactionDraft.mk TransactionType.income 5 (JSDate.mk 2024 1 1) "a"
          RecurrenceType.none) "id1",
         Op.add (TransactionDraft.mk TransactionType.expense 3 (JSDate.mk 2024 1 2) "b"
          RecurrenceType.none) "id2",
         Op.delete "id1"]).transactions.map (fun t => t.id)).Nodup :=
  ⟨by decide,
   ids_nodup_of_freshRun
     [Op.add (TransactionDraft.mk TransactionType.income 5 (JSDate.mk 2024 1 1) "a"
       RecurrenceType.none) "id1",
      Op.add (TransactionDraft.mk TransactionType.expense 3 (JSDate.mk 2024 1 2) "b"
       RecurrenceType.none) "id2",
      Op.delete "id1"] (by decide)⟩

/-- C9 counterexample: the generated id is never checked against the ledger,
so when the generator repeats a value (possible, since it is
`Math.random().toString(36).substring(2) + Date.now().toString(36)` with no
uniqueness guarantee), two adds of the same draft yield two transactions with
the same id. -/
theorem ids_collide_when_generator_repeats :
    ¬ ((runOps initialState
        [Op.add (TransactionDraft.mk TransactionType.income 5 (JSDate.mk 2024 1 1) "a"
          RecurrenceType.none) "dup",
         Op.add (TransactionDraft.mk TransactionType.income 5 (JSDate.mk 2024 1 1) "a"
          RecurrenceType.none) "dup"]).transactions.map (fun t => t.id)).Nodup := by
  decide
